import Mathlib

/-!
Shallow embedding of the shinobi monitoring repository.

Embedded sources: `process_monitors` and the driver loop of `Shinobi.py`
(namespace `Shinobi.Py`), `process_monitors` of `shinobi_deep.py`
(namespace `Shinobi.Deep`), `ping_server` and the per-host transition
logic of `log_server_status` of `server_check.py`
(namespace `Shinobi.ServerCheck`), and the percentage computation of
`status_check.py`.

Python floats are modelled as rationals; wall-clock readings
(`datetime.now`, `time.time`) are explicit inputs, with timestamps as
seconds; `dict.get` on possibly absent keys is modelled with `Option`.
-/

namespace Shinobi

/-- Python `round` to nearest integer, ties to even, modelled on rationals. -/
def roundHalfEven (q : ℚ) : ℤ :=
  let f := ⌊q⌋
  let r := q - (f : ℚ)
  if r < 1/2 then f
  else if 1/2 < r then f + 1
  else if f % 2 = 0 then f else f + 1

/-- Python `round(x, 2)`. -/
def round2 (q : ℚ) : ℚ := (roundHalfEven (q * 100) : ℚ) / 100

/-- One monitor object of the upstream JSON array; absent dictionary keys
are `none` (Python `dict.get` semantics). -/
structure Monitor where
  mid : Option String
  name : Option String
  mode : Option String
  status : Option String
  deriving Repr, DecidableEq

/-- Derived flag of both variants: `mode == "record" and status == "Recording"`. -/
def operationalFlag (m : Monitor) : Bool :=
  m.mode == some "record" && m.status == some "Recording"

/-- Per-monitor status entry built for a kept record (identical field set in
`Shinobi.py` and `shinobi_deep.py`). -/
structure Status where
  id : String
  name : String
  recording : Bool
  operational : Bool
  mode : String
  status : String
  deriving Repr, DecidableEq

/-- The status dictionary built for a kept monitor record. -/
def statusOf (mid : String) (m : Monitor) : Status :=
  { id := mid
    name := m.name.getD "Unknown"
    recording := m.mode == some "record"
    operational := operationalFlag m
    mode := m.mode.getD "Unknown"
    status := m.status.getD "Unknown" }

/-- The metrics dictionary; `date` and `time` are the formatted wall clock,
passed in as an explicit stamp.  `not_recording` is an integer because
`shinobi_deep.py` can drive it negative on duplicated records. -/
structure Metrics where
  date : String
  time : String
  total_cameras : Nat
  recording : Nat
  not_recording : Int
  percentage_recording : ℚ
  threshold_met : String
  deriving Repr, DecidableEq

/-- Timestamp-free projection of a metrics record. -/
def metricsCore (m : Metrics) : Nat × Nat × Int × ℚ × String :=
  (m.total_cameras, m.recording, m.not_recording, m.percentage_recording, m.threshold_met)

/-- Specification-side definition (spec section 4.2): missing equals
trackedIds minus encounteredIds, order preserving, where the encountered
ids are those occurring in the record list. -/
def missingSpec (ms : List Monitor) (tracked : List String) : List String :=
  tracked.filter (fun mid => !ms.any (fun m => m.mid == some mid))

namespace Py

/-- Fields of the `.env` configuration of `Shinobi.py` that the embedded
functions consult (cooldown in seconds). -/
structure Config where
  monitor_ids : List String
  max_consecutive_failures : Nat
  notification_cooldown : ℚ
  deriving Repr, DecidableEq

/-- Return value of `process_monitors` of `Shinobi.py`: on invalid or empty
input the metrics dictionary is empty (`none` here) and no missing list is
produced. -/
structure ProcessedData where
  monitors : List Status
  metrics : Option Metrics
  missing_monitors : List String
  deriving Repr, DecidableEq

/-- One iteration of the scanning loop of `process_monitors`: the running
pair is (seen ids, collected statuses); a record is kept when its id is
tracked and not seen yet (first occurrence wins). -/
def scanStep (ids : List String) (st : List String × List Status) (m : Monitor) :
    List String × List Status :=
  match m.mid with
  | none => st
  | some mid =>
      if mid ∈ ids ∧ mid ∉ st.1 then (mid :: st.1, st.2 ++ [statusOf mid m]) else st

/-- The scanning loop over the raw record list. -/
def scan (ids : List String) (ms : List Monitor) : List String × List Status :=
  ms.foldl (scanStep ids) ([], [])

/-- Embedding of `process_monitors` of `Shinobi.py` (lines 299-363); the
guard `not monitors_data or not isinstance(monitors_data, list)` maps
`none` and the empty list to the empty result. -/
def process_monitors (data : Option (List Monitor)) (cfg : Config)
    (stamp : String × String) : ProcessedData :=
  match data with
  | none => { monitors := [], metrics := none, missing_monitors := [] }
  | some [] => { monitors := [], metrics := none, missing_monitors := [] }
  | some ms =>
      let seen := (scan cfg.monitor_ids ms).1
      let statuses := (scan cfg.monitor_ids ms).2
      let missing := cfg.monitor_ids.filter (fun mid => !seen.contains mid)
      let total := cfg.monitor_ids.length
      let recCount := (statuses.filter (fun s => s.operational)).length
      let pct := if 0 < total then round2 ((recCount : ℚ) / (total : ℚ) * 100) else 0
      { monitors := statuses
        metrics := some
          { date := stamp.1
            time := stamp.2
            total_cameras := total
            recording := recCount
            not_recording := (total : Int) - (recCount : Int)
            percentage_recording := pct
            threshold_met := if 75 ≤ pct then "Yes" else "No" }
        missing_monitors := missing }

/-- Observable outcome of one iteration of the main loop of `Shinobi.py`:
either the health check fails (with the clock reading and whether the
webhook delivery succeeds), or the health check passes and the subsequent
monitor fetch returns the given data. -/
inductive CycleObs
  | healthFail (now : ℚ) (delivered : Bool)
  | fetchResult (data : Option (List Monitor)) (stamp : String × String)

/-- Mutable locals of `main` of `Shinobi.py` plus instrumentation counters:
webhook calls carrying the server-down message (`down_alerts`), webhook
calls carrying the exit message (`final_notifications`), JSON files written
and sheet rows appended. -/
structure DriverState where
  consecutive_failures : Nat
  last_notification_time : ℚ
  server_was_up : Bool
  stopped : Bool
  exit_code : Option Nat
  down_alerts : Nat
  final_notifications : Nat
  json_writes : Nat
  sheet_rows : Nat
  deriving Repr, DecidableEq

/-- Initial state of the main loop (lines 424-427). -/
def initState : DriverState :=
  { consecutive_failures := 0, last_notification_time := 0, server_was_up := true,
    stopped := false, exit_code := none, down_alerts := 0, final_notifications := 0,
    json_writes := 0, sheet_rows := 0 }

/-- Down-notification block of the failure branch (lines 449-453): a call
is made on the first failure of an outage or once the cooldown has elapsed;
the last-notification time advances only when delivery succeeds. -/
def notifyDown (cfg : Config) (st : DriverState) (now : ℚ) (delivered : Bool) :
    DriverState :=
  if st.server_was_up = true ∨ cfg.notification_cooldown ≤ now - st.last_notification_time then
    { st with down_alerts := st.down_alerts + 1,
              last_notification_time := if delivered then now else st.last_notification_time,
              server_was_up := false }
  else st

/-- Exit branch taken when the failure counter reaches the configured
maximum: one final webhook call, then `sys.exit(1)`. -/
def stopDriver (st : DriverState) : DriverState :=
  { st with stopped := true, exit_code := some 1,
            final_notifications := st.final_notifications + 1 }

/-- One iteration of the main loop of `Shinobi.py` (lines 438-497).  Note
that a passing health check resets the failure counter (line 464) before
`get_all_monitors` runs, so a fetch failure within such a cycle increments
the counter from zero. -/
def step (cfg : Config) (st : DriverState) (obs : CycleObs) : DriverState :=
  if st.stopped then st else
  match obs with
  | .healthFail now delivered =>
      let st1 := { st with consecutive_failures := st.consecutive_failures + 1 }
      let st2 := notifyDown cfg st1 now delivered
      if cfg.max_consecutive_failures ≤ st2.consecutive_failures then stopDriver st2 else st2
  | .fetchResult data stamp =>
      let st1 := { st with consecutive_failures := 0, server_was_up := true }
      match data with
      | none =>
          let st2 := { st1 with consecutive_failures := st1.consecutive_failures + 1 }
          if cfg.max_consecutive_failures ≤ st2.consecutive_failures then stopDriver st2 else st2
      | some ms =>
          match (process_monitors (some ms) cfg stamp).metrics with
          | some _ => { st1 with json_writes := st1.json_writes + 1,
                                 sheet_rows := st1.sheet_rows + 1 }
          | none => st1

/-- Fold of `step` over a sequence of cycle observations. -/
def run (cfg : Config) (st : DriverState) (obss : List CycleObs) : DriverState :=
  obss.foldl (step cfg) st

end Py

namespace Deep

/-- Fields of the configuration of `shinobi_deep.py` that the embedded
function consults (the threshold is validated to lie in [0, 100]). -/
structure Config where
  monitor_ids : List String
  threshold_percentage : ℚ
  deriving Repr, DecidableEq

/-- Return value of `process_monitors` of `shinobi_deep.py`: the metrics
dictionary is always populated. -/
structure ProcessedData where
  monitors : List Status
  metrics : Metrics
  missing_monitors : List String
  deriving Repr, DecidableEq

/-- One iteration of the record loop of `process_monitors` of
`shinobi_deep.py` (lines 283-309): records without a `mid` key are skipped
(the KeyError is caught), a tracked id is removed from the missing list on
first sight, and every tracked occurrence appends a status entry and
counts when operational (there is no seen-id set in this variant). -/
def scanStep (ids : List String) (st : List String × List Status × Nat) (m : Monitor) :
    List String × List Status × Nat :=
  match m.mid with
  | none => st
  | some mid =>
      if mid ∈ ids then
        (if mid ∈ st.1 then st.1.erase mid else st.1,
         st.2.1 ++ [statusOf mid m],
         st.2.2 + (if operationalFlag m then 1 else 0))
      else st

/-- Embedding of `process_monitors` of `shinobi_deep.py` (lines 265-318);
`none` models a non-list argument, which returns the initial metrics
unchanged. -/
def process_monitors (data : Option (List Monitor)) (cfg : Config)
    (stamp : String × String) : ProcessedData :=
  let total := cfg.monitor_ids.length
  match data with
  | none =>
      { monitors := []
        metrics := { date := stamp.1, time := stamp.2, total_cameras := total,
                     recording := 0, not_recording := (total : Int),
                     percentage_recording := 0, threshold_met := "No" }
        missing_monitors := cfg.monitor_ids }
  | some ms =>
      let st := ms.foldl (scanStep cfg.monitor_ids) (cfg.monitor_ids, [], 0)
      let pct := if 0 < total then round2 ((st.2.2 : ℚ) / (total : ℚ) * 100) else 0
      let met := if 0 < total then (if cfg.threshold_percentage ≤ pct then "Yes" else "No")
                 else "No"
      { monitors := st.2.1
        metrics := { date := stamp.1, time := stamp.2, total_cameras := total,
                     recording := st.2.2,
                     not_recording := (total : Int) - (st.2.2 : Int),
                     percentage_recording := pct, threshold_met := met }
        missing_monitors := st.1 }

end Deep

/-- Percentage computation of `status_check.py` (lines 117-121): guarded
division, then rounding to two decimals. -/
def statusCheckPercentage (recording total : Nat) : ℚ :=
  round2 (if 0 < total then (recording : ℚ) / (total : ℚ) * 100 else 0)

namespace ServerCheck

/-- Ping verdict of a host in `server_check.py`. -/
inductive HostStatus
  | Up
  | Down
  deriving Repr, DecidableEq

/-- Embedding of `ping_server` (lines 44-67): the probe attempts are an
explicit oracle, `probe 0` being the first try and `probe 1` the retry
performed after the 120 second grace sleep. -/
def ping_server (probe : Nat → Bool) : HostStatus :=
  if probe 0 then .Up else if probe 1 then .Up else .Down

/-- Per-host tracker dictionary of `server_check.py` (lines 31-38);
timestamps in seconds. -/
structure Tracker where
  last_status : Option HostStatus
  last_down_time : Option ℚ
  last_up_time : Option ℚ
  notification_sent : Bool
  deriving Repr, DecidableEq

/-- Fields of the row appended for a host in one cycle that the transition
logic fills (the Last Down Time column is omitted: the source never
assigns it), together with whether a WhatsApp alert call was made. -/
structure Row where
  status : HostStatus
  up_time : Option ℚ
  duration : Option ℚ
  alert : Bool
  deriving Repr, DecidableEq

/-- Per-host body of `log_server_status` (lines 109-142): given the
tracker, the probe verdict and the current time, returns the updated
tracker and the logged row. -/
def log_server_status_step (tr : Tracker) (status : HostStatus) (now : ℚ) :
    Tracker × Row :=
  match status with
  | .Down =>
      let alert := !tr.notification_sent
      ({ last_status := some .Down
         last_down_time := if tr.last_status ≠ some .Down then some now else tr.last_down_time
         last_up_time := tr.last_up_time
         notification_sent := tr.notification_sent || alert },
       { status := .Down, up_time := none, duration := none, alert := alert })
  | .Up =>
      if tr.last_status = some .Down then
        ({ last_status := some .Up, last_down_time := none,
           last_up_time := some now, notification_sent := false },
         { status := .Up, up_time := some now,
           duration := tr.last_down_time.map (fun d => round2 ((now - d) / 60)),
           alert := false })
      else
        ({ tr with last_status := some .Up },
         { status := .Up, up_time := tr.last_up_time, duration := none, alert := false })

end ServerCheck

/-- Membership in the seen-id set built by the scanning loop of
`Shinobi.py`: an id is seen exactly when it was already seen or it is
tracked and occurs in the record list. -/
theorem py_mem_scan_fst (ids : List String) (ms : List Monitor) :
    ∀ (seen : List String) (stats : List Status) (x : String),
      (x ∈ (ms.foldl (Py.scanStep ids) (seen, stats)).1 ↔
        x ∈ seen ∨ (x ∈ ids ∧ ∃ m ∈ ms, m.mid = some x)) := by
  induction ms with
  | nil =>
      intro seen stats x
      simp
  | cons m ms ih =>
      intro seen stats x
      rw [List.foldl_cons]
      cases hm : m.mid with
      | none =>
          rw [show Py.scanStep ids (seen, stats) m = (seen, stats) from by
            simp [Py.scanStep, hm]]
          rw [ih]
          constructor
          · rintro (hx | ⟨hxids, m', hm', hmid⟩)
            · exact Or.inl hx
            · exact Or.inr ⟨hxids, m', List.mem_cons_of_mem m hm', hmid⟩
          · rintro (hx | ⟨hxids, m', hm', hmid⟩)
            · exact Or.inl hx
            · rcases List.mem_cons.mp hm' with rfl | hm2
              · rw [hm] at hmid
                exact absurd hmid (by simp)
              · exact Or.inr ⟨hxids, m', hm2, hmid⟩
      | some mid =>
          by_cases h : mid ∈ ids ∧ mid ∉ seen
          · rw [show Py.scanStep ids (seen, stats) m
                = (mid :: seen, stats ++ [statusOf mid m]) from by
              simp [Py.scanStep, hm, h]]
            rw [ih]
            constructor
            · rintro (hx | ⟨hxids, m', hm', hmid⟩)
              · rcases List.mem_cons.mp hx with rfl | hx2
                · exact Or.inr ⟨h.1, m, List.mem_cons_self m ms, hm⟩
                · exact Or.inl hx2
              · exact Or.inr ⟨hxids, m', List.mem_cons_of_mem m hm', hmid⟩
            · rintro (hx | ⟨hxids, m', hm', hmid⟩)
              · exact Or.inl (List.mem_cons_of_mem mid hx)
              · rcases List.mem_cons.mp hm' with rfl | hm2
                · rw [hm] at hmid
                  injection hmid with hxe
                  subst hxe
                  exact Or.inl (List.mem_cons_self _ _)
                · exact Or.inr ⟨hxids, m', hm2, hmid⟩
          · rw [show Py.scanStep ids (seen, stats) m = (seen, stats) from by
              simp [Py.scanStep, hm, h]]
            rw [ih]
            push_neg at h
            constructor
            · rintro (hx | ⟨hxids, m', hm', hmid⟩)
              · exact Or.inl hx
              · exact Or.inr ⟨hxids, m', List.mem_cons_of_mem m hm', hmid⟩
            · rintro (hx | ⟨hxids, m', hm', hmid⟩)
              · exact Or.inl hx
              · rcases List.mem_cons.mp hm' with rfl | hm2
                · rw [hm] at hmid
                  injection hmid with hxe
                  subst hxe
                  exact Or.inl (h hxids)
                · exact Or.inr ⟨hxids, m', hm2, hmid⟩

/-- Invariant of the scanning loop of `Shinobi.py`: the collected status
entries carry pairwise distinct ids, each of which is in the seen set. -/
theorem py_scan_nodup_inv (ids : List String) (ms : List Monitor) :
    ∀ (seen : List String) (stats : List Status),
      (∀ s ∈ stats, s.id ∈ seen) → (stats.map Status.id).Nodup →
      (∀ s ∈ (ms.foldl (Py.scanStep ids) (seen, stats)).2,
          s.id ∈ (ms.foldl (Py.scanStep ids) (seen, stats)).1) ∧
      ((ms.foldl (Py.scanStep ids) (seen, stats)).2.map Status.id).Nodup := by
  induction ms with
  | nil =>
      intro seen stats h1 h2
      exact ⟨h1, h2⟩
  | cons m ms ih =>
      intro seen stats h1 h2
      rw [List.foldl_cons]
      cases hm : m.mid with
      | none =>
          rw [show Py.scanStep ids (seen, stats) m = (seen, stats) from by
            simp [Py.scanStep, hm]]
          exact ih seen stats h1 h2
      | some mid =>
          by_cases h : mid ∈ ids ∧ mid ∉ seen
          · rw [show Py.scanStep ids (seen, stats) m
                = (mid :: seen, stats ++ [statusOf mid m]) from by
              simp [Py.scanStep, hm, h]]
            apply ih
            · intro s hs
              rcases List.mem_append.mp hs with hs2 | hs2
              · exact List.mem_cons_of_mem _ (h1 s hs2)
              · rw [List.mem_singleton.mp hs2]
                exact List.mem_cons_self _ _
            · rw [List.map_append, List.nodup_append]
              refine ⟨h2, List.nodup_singleton _, ?_⟩
              intro a ha hb
              rcases List.mem_map.mp ha with ⟨s, hs, rfl⟩
              have hsid : s.id = mid := by
                simpa [statusOf] using hb
              exact h.2 (hsid ▸ h1 s hs)
          · rw [show Py.scanStep ids (seen, stats) m = (seen, stats) from by
              simp [Py.scanStep, hm, h]]
            exact ih seen stats h1 h2

/-- The missing list maintained by the record loop of `shinobi_deep.py`:
when the tracked list is duplicate-free, starting from a filtered tracked
list the loop removes exactly the ids occurring in the records. -/
theorem deep_fold_missing (ids : List String) (hnd : ids.Nodup) (ms : List Monitor) :
    ∀ (p : String → Bool) (stats : List Status) (n : Nat),
      (ms.foldl (Deep.scanStep ids) (ids.filter p, stats, n)).1
        = ids.filter (fun x => p x && !ms.any (fun m => m.mid == some x)) := by
  induction ms with
  | nil =>
      intro p stats n
      simp
  | cons m ms ih =>
      intro p stats n
      rw [List.foldl_cons]
      cases hm : m.mid with
      | none =>
          rw [show Deep.scanStep ids (ids.filter p, stats, n) m = (ids.filter p, stats, n) from by
            simp [Deep.scanStep, hm]]
          rw [ih p stats n]
          apply List.filter_congr
          intro x hx
          simp [hm]
      | some mid =>
          by_cases hmem : mid ∈ ids
          · have hstep : Deep.scanStep ids (ids.filter p, stats, n) m
                = (ids.filter (fun x => p x && (x != mid)),
                   stats ++ [statusOf mid m],
                   n + (if operationalFlag m then 1 else 0)) := by
              have hmiss : (if mid ∈ ids.filter p then (ids.filter p).erase mid
                  else ids.filter p) = ids.filter (fun x => p x && (x != mid)) := by
                by_cases hin : mid ∈ ids.filter p
                · rw [if_pos hin, (hnd.filter p).erase_eq_filter, List.filter_filter]
                  apply List.filter_congr
                  intro x hx
                  rw [Bool.and_comm]
                · rw [if_neg hin]
                  apply List.filter_congr
                  intro x hx
                  by_cases hpx : p x = true
                  · have hxm : x ≠ mid := by
                      intro hxe
                      exact hin (List.mem_filter.mpr ⟨hxe ▸ hx, hxe ▸ hpx⟩)
                    simp [hpx, hxm]
                  · simp [Bool.eq_false_iff.mpr hpx]
              simp only [Deep.scanStep, hm, if_pos hmem, hmiss]
            rw [hstep, ih (fun x => p x && (x != mid)) _ _]
            apply List.filter_congr
            intro x hx
            by_cases hxm : x = mid
            · subst hxm
              simp [hm]
            · have hmx : (mid == x) = false := beq_eq_false_iff_ne.mpr (fun he => hxm he.symm)
              have hbx : (x != mid) = true := bne_iff_ne.mpr hxm
              simp [hm, hmx, hbx, Bool.and_assoc]
          · rw [show Deep.scanStep ids (ids.filter p, stats, n) m = (ids.filter p, stats, n) from by
              simp [Deep.scanStep, hm, hmem]]
            rw [ih p stats n]
            apply List.filter_congr
            intro x hx
            have hmx : (mid == x) = false := beq_eq_false_iff_ne.mpr (fun he => hmem (he ▸ hx))
            simp [hm, hmx]

/-- C1: the metric calculator is pure and deterministic.  In the embedding
the wall clock is an explicit input (the stamp); identical record lists,
configurations and stamps give identical summaries, and every part of the
summary other than the copied stamp is independent even of the stamp.
Both cited variants are covered. -/
theorem process_monitors_pure_deterministic :
    (∀ data cfg s1 s2,
      (Py.process_monitors data cfg s1).monitors = (Py.process_monitors data cfg s2).monitors ∧
      (Py.process_monitors data cfg s1).missing_monitors
          = (Py.process_monitors data cfg s2).missing_monitors ∧
      (Py.process_monitors data cfg s1).metrics.map metricsCore
          = (Py.process_monitors data cfg s2).metrics.map metricsCore ∧
      Py.process_monitors data cfg s1 = Py.process_monitors data cfg s1) ∧
    (∀ data cfg s1 s2,
      (Deep.process_monitors data cfg s1).monitors
          = (Deep.process_monitors data cfg s2).monitors ∧
      (Deep.process_monitors data cfg s1).missing_monitors
          = (Deep.process_monitors data cfg s2).missing_monitors ∧
      metricsCore (Deep.process_monitors data cfg s1).metrics
          = metricsCore (Deep.process_monitors data cfg s2).metrics ∧
      Deep.process_monitors data cfg s1 = Deep.process_monitors data cfg s1) := by
  constructor
  · intro data cfg s1 s2
    cases data with
    | none => exact ⟨rfl, rfl, rfl, rfl⟩
    | some ms =>
        cases ms with
        | nil => exact ⟨rfl, rfl, rfl, rfl⟩
        | cons m rest => exact ⟨rfl, rfl, rfl, rfl⟩
  · intro data cfg s1 s2
    cases data with
    | none => exact ⟨rfl, rfl, rfl, rfl⟩
    | some ms => exact ⟨rfl, rfl, rfl, rfl⟩

/-- C5: after a down-alert was sent for an ongoing outage
(`server_was_up = false`), a further down-notification within the cooldown
window is suppressed; a down-notification is attempted only on a fresh
up-to-down transition or once the cooldown has elapsed; and in
`server_check.py` a Down observation with the per-outage flag already set
makes no alert call. -/
theorem cooldown_suppression :
    (∀ cfg st now delivered,
        st.stopped = false → st.server_was_up = false →
        now - st.last_notification_time < cfg.notification_cooldown →
        (Py.step cfg st (.healthFail now delivered)).down_alerts = st.down_alerts ∧
        (st.consecutive_failures + 1 < cfg.max_consecutive_failures →
          (Py.step cfg st (.healthFail now delivered)).final_notifications
            = st.final_notifications)) ∧
    (∀ cfg st now delivered,
        st.stopped = false →
        (Py.step cfg st (.healthFail now delivered)).down_alerts ≠ st.down_alerts →
        st.server_was_up = true ∨
          cfg.notification_cooldown ≤ now - st.last_notification_time) ∧
    (∀ tr now, tr.notification_sent = true →
        (ServerCheck.log_server_status_step tr .Down now).2.alert = false) := by
  refine ⟨?_, ?_, ?_⟩
  · intro cfg st now delivered hstop hup hcool
    have hc : ¬ (st.server_was_up = true ∨
        cfg.notification_cooldown ≤ now - st.last_notification_time) := by
      rw [hup]; push_neg; exact ⟨Bool.false_ne_true, hcool⟩
    constructor
    · simp only [Py.step, hstop, Py.notifyDown]
      rw [if_neg hc]
      split_ifs <;> simp [Py.stopDriver]
    · intro hlt
      have hnmax : ¬ cfg.max_consecutive_failures ≤ st.consecutive_failures + 1 :=
        Nat.not_le.mpr hlt
      simp only [Py.step, hstop, Py.notifyDown]
      rw [if_neg hc, if_neg hnmax]
      simp
  · intro cfg st now delivered hstop hne
    by_cases hc : st.server_was_up = true ∨
        cfg.notification_cooldown ≤ now - st.last_notification_time
    · exact hc
    · exfalso
      apply hne
      simp only [Py.step, hstop, Py.notifyDown]
      rw [if_neg hc]
      split_ifs <;> simp [Py.stopDriver]
  · intro tr now hsent
    simp [ServerCheck.log_server_status_step, hsent]

/-- C5 witness: with the outage already alerted at time 1000 and cooldown
3600, a failed health check at time 2000 makes no further down-alert, and
a Down probe with the flag set makes no WhatsApp call. -/
theorem cooldown_suppression_witness :
    (Py.step ⟨[], 3, 3600⟩ ⟨1, 1000, false, false, none, 1, 0, 0, 0⟩
        (.healthFail 2000 true)).down_alerts = 1 ∧
    (ServerCheck.log_server_status_step ⟨some .Down, some 500, none, true⟩
        .Down 600).2.alert = false :=
  ⟨(cooldown_suppression.1 ⟨[], 3, 3600⟩ ⟨1, 1000, false, false, none, 1, 0, 0, 0⟩
      2000 true rfl rfl (by norm_num)).1,
   cooldown_suppression.2.2 ⟨some .Down, some 500, none, true⟩ 600 rfl⟩

/-- C6: with no tracked monitor identifiers the computed percentage is 0
and no division is performed, in `Shinobi.py`, `shinobi_deep.py` and
`status_check.py` alike. -/
theorem zero_tracked_percentage :
    (∀ data cfg s m, cfg.monitor_ids = [] →
        (Py.process_monitors data cfg s).metrics = some m →
        m.percentage_recording = 0) ∧
    (∀ data cfg s, cfg.monitor_ids = [] →
        (Deep.process_monitors data cfg s).metrics.percentage_recording = 0) ∧
    (∀ r : Nat, statusCheckPercentage r 0 = 0) := by
  refine ⟨?_, ?_, ?_⟩
  · intro data cfg s m hids h
    cases data with
    | none => simp [Py.process_monitors] at h
    | some ms =>
        cases ms with
        | nil => simp [Py.process_monitors] at h
        | cons m0 rest =>
            simp only [Py.process_monitors, Option.some_inj] at h
            subst h
            simp [hids]
  · intro data cfg s hids
    cases data with
    | none => simp [Deep.process_monitors]
    | some ms => simp [Deep.process_monitors, hids]
  · intro r
    norm_num [statusCheckPercentage, round2, roundHalfEven]

/-- C6 witness: a record list with no tracked ids configured yields a
summary whose percentage is 0. -/
theorem zero_tracked_percentage_witness :
    (Py.process_monitors (some [⟨some "A", none, none, none⟩]) ⟨[], 5, 3600⟩
        ("d", "t")).metrics = some ⟨"d", "t", 0, 0, 0, 0, "No"⟩ ∧
    (⟨"d", "t", 0, 0, 0, 0, "No"⟩ : Metrics).percentage_recording = 0 :=
  ⟨by rfl, zero_tracked_percentage.1 (some [⟨some "A", none, none, none⟩])
      ⟨[], 5, 3600⟩ ("d", "t") ⟨"d", "t", 0, 0, 0, 0, "No"⟩ rfl (by rfl)⟩

/-- C8: on a Down-to-Up transition the logged outage duration is the time
from the stored down-timestamp to the up-timestamp in minutes, rounded to
two decimals, and the up-timestamp is recorded. -/
theorem outage_duration_minutes :
    ∀ tr t0 now, tr.last_status = some .Down → tr.last_down_time = some t0 →
      (ServerCheck.log_server_status_step tr .Up now).2.duration
          = some (round2 ((now - t0) / 60)) ∧
      (ServerCheck.log_server_status_step tr .Up now).2.up_time = some now ∧
      (ServerCheck.log_server_status_step tr .Up now).1.last_up_time = some now := by
  intro tr t0 now h1 h2
  simp [ServerCheck.log_server_status_step, h1, h2]

/-- C8 witness: down at 10:00:00 (36000 s) and up at 10:07:30 (36450 s)
records a duration of 7.5 minutes. -/
theorem outage_duration_minutes_witness :
    (ServerCheck.log_server_status_step ⟨some .Down, some 36000, none, true⟩
        .Up 36450).2.duration = some (round2 ((36450 - 36000) / 60)) ∧
    round2 (((36450 : ℚ) - 36000) / 60) = 15 / 2 :=
  ⟨(outage_duration_minutes ⟨some .Down, some 36000, none, true⟩ 36000 36450 rfl rfl).1,
   by norm_num [round2, roundHalfEven]⟩

/-- C9: the host probe retries once after the grace period; a first-attempt
failure followed by a successful retry is reported Up, and Down is returned
exactly when both attempts fail. -/
theorem ping_retry_up :
    ∀ probe : Nat → Bool,
      (probe 0 = false → probe 1 = true → ServerCheck.ping_server probe = .Up) ∧
      (ServerCheck.ping_server probe = .Down ↔ probe 0 = false ∧ probe 1 = false) := by
  intro probe
  constructor
  · intro h0 h1
    simp [ServerCheck.ping_server, h0, h1]
  · cases h0 : probe 0 <;> cases h1 : probe 1 <;>
      simp [ServerCheck.ping_server, h0, h1]

/-- C9 witness: the probe that fails its first attempt and succeeds on the
retry reports Up. -/
theorem ping_retry_up_witness :
    ((fun n => decide (n = 1)) 0 = false) ∧ ((fun n => decide (n = 1)) 1 = true) ∧
      ServerCheck.ping_server (fun n => decide (n = 1)) = .Up :=
  ⟨rfl, rfl, (ping_retry_up (fun n => decide (n = 1))).1 rfl rfl⟩

/-- C10: a running cycle whose fetch yields no monitor data (`None`) or an
empty record list writes no JSON file and appends no sheet row: the
persisted-output counters are unchanged. -/
theorem failed_fetch_no_outputs :
    ∀ cfg st stamp, st.stopped = false →
      ((Py.step cfg st (.fetchResult none stamp)).json_writes = st.json_writes ∧
       (Py.step cfg st (.fetchResult none stamp)).sheet_rows = st.sheet_rows) ∧
      ((Py.step cfg st (.fetchResult (some []) stamp)).json_writes = st.json_writes ∧
       (Py.step cfg st (.fetchResult (some []) stamp)).sheet_rows = st.sheet_rows) := by
  intro cfg st stamp hstop
  constructor
  · simp only [Py.step, hstop]
    split_ifs <;> simp [Py.stopDriver]
  · simp [Py.step, hstop, Py.process_monitors]

/-- C10 witness: from the initial driver state, a cycle with a `None` fetch
and a cycle with an empty record list both leave the output counters at 0. -/
theorem failed_fetch_no_outputs_witness :
    ((Py.step ⟨["A"], 3, 3600⟩ Py.initState (.fetchResult none ("d", "t"))).json_writes = 0 ∧
     (Py.step ⟨["A"], 3, 3600⟩ Py.initState (.fetchResult none ("d", "t"))).sheet_rows = 0) ∧
    ((Py.step ⟨["A"], 3, 3600⟩ Py.initState (.fetchResult (some []) ("d", "t"))).json_writes = 0 ∧
     (Py.step ⟨["A"], 3, 3600⟩ Py.initState (.fetchResult (some []) ("d", "t"))).sheet_rows = 0) :=
  failed_fetch_no_outputs ⟨["A"], 3, 3600⟩ Py.initState ("d", "t") rfl

/-- C2 counterexample: `process_monitors` of `shinobi_deep.py` counts a
duplicated tracked identifier once per occurrence: two records with
id "A" and tracked list ["A"] yield an operational count of 2, not at
most 1. -/
theorem duplicate_ids_double_counted_in_deep :
    (Deep.process_monitors
        (some [⟨some "A", some "Cam", some "record", some "Recording"⟩,
               ⟨some "A", some "Cam", some "record", some "Recording"⟩])
        ⟨["A"], 75⟩ ("d", "t")).metrics.recording = 2 ∧
    ¬ ((Deep.process_monitors
        (some [⟨some "A", some "Cam", some "record", some "Recording"⟩,
               ⟨some "A", some "Cam", some "record", some "Recording"⟩])
        ⟨["A"], 75⟩ ("d", "t")).metrics.recording ≤ 1) := by
  constructor <;>
    simp [Deep.process_monitors, Deep.scanStep, operationalFlag, statusOf]

/-- C2 corrected: in `Shinobi.py` a monitor record is counted at most once
per cycle, first occurrence wins — the status ids of every summary are
pairwise distinct, and on the duplicate input [mid "A", mid "A"] with
tracked ["A"] only the first record is kept, with total 1 and operational
count 1; `shinobi_deep.py` lacks the seen-id set and counts each
occurrence. -/
theorem duplicate_ids_counted_once_amended :
    (∀ data cfg s, ((Py.process_monitors data cfg s).monitors.map Status.id).Nodup) ∧
    ((Py.process_monitors
        (some [⟨some "A", some "first", some "record", some "Recording"⟩,
               ⟨some "A", some "second", some "stop", some "Stopped"⟩])
        ⟨["A"], 5, 3600⟩ ("d", "t")).monitors
      = [⟨"A", "first", true, true, "record", "Recording"⟩]) ∧
    ((Py.process_monitors
        (some [⟨some "A", some "first", some "record", some "Recording"⟩,
               ⟨some "A", some "second", some "stop", some "Stopped"⟩])
        ⟨["A"], 5, 3600⟩ ("d", "t")).metrics
      = some ⟨"d", "t", 1, 1, 0, 100, "Yes"⟩) := by
  refine ⟨?_, ?_, ?_⟩
  · intro data cfg s
    cases data with
    | none => simp [Py.process_monitors]
    | some ms =>
        cases ms with
        | nil => simp [Py.process_monitors]
        | cons m0 rest =>
            have h := py_scan_nodup_inv cfg.monitor_ids (m0 :: rest) [] []
              (by simp) (by simp)
            simpa [Py.process_monitors, Py.scan] using h.2
  · simp [Py.process_monitors, Py.scan, Py.scanStep, statusOf, operationalFlag]
  · norm_num [Py.process_monitors, Py.scan, Py.scanStep, statusOf, operationalFlag,
      round2, roundHalfEven]

/-- C3: evaluated at the failing input, the driver of `Shinobi.py` does not
stop on three consecutive monitor-data fetch failures with
`max_consecutive_failures = 3`: each such cycle follows a passing health
check, which resets the counter before the fetch, so the counter stays at 1
and no final notification fires; by contrast three consecutive failed
health checks do stop the driver with exit code 1 after exactly one final
notification. -/
theorem consecutive_fetch_failures_evaluation :
    (Py.run ⟨[], 3, 3600⟩ Py.initState
        [.fetchResult none ("d", "t"), .fetchResult none ("d", "t"),
         .fetchResult none ("d", "t")])
      = ⟨1, 0, true, false, none, 0, 0, 0, 0⟩ ∧
    ((Py.run ⟨[], 3, 3600⟩ Py.initState
        [.healthFail 10 true, .healthFail 20 true, .healthFail 30 true]).stopped = true ∧
     (Py.run ⟨[], 3, 3600⟩ Py.initState
        [.healthFail 10 true, .healthFail 20 true, .healthFail 30 true]).exit_code = some 1 ∧
     (Py.run ⟨[], 3, 3600⟩ Py.initState
        [.healthFail 10 true, .healthFail 20 true,
         .healthFail 30 true]).final_notifications = 1) := by
  refine ⟨?_, ?_, ?_, ?_⟩ <;>
    norm_num [Py.run, Py.step, Py.initState, Py.notifyDown, Py.stopDriver]

/-- C4 counterexample: in `shinobi_deep.py` with no tracked monitors and
threshold 0 (a configuration its validator accepts), the percentage is 0,
which meets the threshold, yet the summary reports the threshold as not
met: the if-and-only-if fails. -/
theorem threshold_iff_fails_zero_tracked :
    ¬ (((Deep.process_monitors (some []) ⟨[], 0⟩ ("d", "t")).metrics.threshold_met = "Yes") ↔
        ((Deep.process_monitors (some []) ⟨[], 0⟩ ("d", "t")).metrics.percentage_recording
          ≥ (0 : ℚ))) := by
  simp [Deep.process_monitors]

/-- C4 corrected: the threshold flag is "Yes" exactly when the computed
percentage is at least the threshold (boundary inclusive) — unconditionally
in `Shinobi.py` against its fixed threshold 75, and in `shinobi_deep.py`
for every list input whenever at least one monitor is tracked; with zero
tracked monitors or a non-list input `shinobi_deep.py` reports "No"
regardless of the threshold. -/
theorem threshold_met_iff_amended :
    (∀ data cfg s m, (Py.process_monitors data cfg s).metrics = some m →
        (m.threshold_met = "Yes" ↔ m.percentage_recording ≥ 75)) ∧
    (∀ ms cfg s, cfg.monitor_ids ≠ [] →
        ((Deep.process_monitors (some ms) cfg s).metrics.threshold_met = "Yes" ↔
          (Deep.process_monitors (some ms) cfg s).metrics.percentage_recording
            ≥ cfg.threshold_percentage)) := by
  constructor
  · intro data cfg s m h
    cases data with
    | none => simp [Py.process_monitors] at h
    | some ms =>
        cases ms with
        | nil => simp [Py.process_monitors] at h
        | cons m0 rest =>
            simp only [Py.process_monitors, Option.some_inj] at h
            subst h
            simp only [ge_iff_le]
            split_ifs <;> simp_all
  · intro ms cfg s hids
    have htot : 0 < cfg.monitor_ids.length := List.length_pos.mpr hids
    simp only [Deep.process_monitors, ge_iff_le, htot, if_true, if_pos]
    split_ifs with hth
    · simpa using hth
    · simpa using hth

/-- C4 witness: a single operational tracked monitor gives percentage 100,
which is at least 75, and the flag reads "Yes". -/
theorem threshold_met_iff_amended_witness :
    ((Py.process_monitors (some [⟨some "A", some "Cam", some "record", some "Recording"⟩])
        ⟨["A"], 5, 3600⟩ ("d", "t")).metrics = some ⟨"d", "t", 1, 1, 0, 100, "Yes"⟩ ∧
     ((⟨"d", "t", 1, 1, 0, 100, "Yes"⟩ : Metrics).threshold_met = "Yes" ↔
       (⟨"d", "t", 1, 1, 0, 100, "Yes"⟩ : Metrics).percentage_recording ≥ 75)) ∧
    (((["A"] : List String) ≠ []) ∧
     ((Deep.process_monitors (some []) ⟨["A"], 50⟩ ("d", "t")).metrics.threshold_met = "Yes" ↔
       (Deep.process_monitors (some []) ⟨["A"], 50⟩ ("d", "t")).metrics.percentage_recording
         ≥ (⟨["A"], 50⟩ : Deep.Config).threshold_percentage)) := by
  have h : (Py.process_monitors
      (some [⟨some "A", some "Cam", some "record", some "Recording"⟩])
      ⟨["A"], 5, 3600⟩ ("d", "t")).metrics = some ⟨"d", "t", 1, 1, 0, 100, "Yes"⟩ := by
    norm_num [Py.process_monitors, Py.scan, Py.scanStep, statusOf, operationalFlag,
      round2, roundHalfEven]
  exact ⟨⟨h, threshold_met_iff_amended.1 _ _ _ _ h⟩,
    List.cons_ne_nil _ _,
    threshold_met_iff_amended.2 [] ⟨["A"], 50⟩ ("d", "t") (List.cons_ne_nil _ _)⟩

/-- C7 counterexample: with a duplicated tracked identifier, the missing
list of `shinobi_deep.py` is not tracked minus encountered: tracked
["A", "A"] with a response containing "A" leaves ["A"] missing, while
tracked minus encountered is empty. -/
theorem missing_monitors_deep_duplicate_tracked :
    (Deep.process_monitors (some [⟨some "A", none, none, none⟩]) ⟨["A", "A"], 75⟩
        ("d", "t")).missing_monitors = ["A"] ∧
    missingSpec [⟨some "A", none, none, none⟩] ["A", "A"] = [] ∧
    (Deep.process_monitors (some [⟨some "A", none, none, none⟩]) ⟨["A", "A"], 75⟩
        ("d", "t")).missing_monitors
      ≠ missingSpec [⟨some "A", none, none, none⟩] ["A", "A"] := by
  refine ⟨?_, ?_, ?_⟩ <;>
    simp [Deep.process_monitors, Deep.scanStep, missingSpec, statusOf, operationalFlag,
      List.erase_cons]

/-- C7 corrected: the missing output equals tracked minus encountered ids,
preserving configured order — in `Shinobi.py` for every nonempty record
list (an empty or absent list short-circuits to an empty result), and in
`shinobi_deep.py` for every record list whenever the configured tracked
list is duplicate-free; a duplicated tracked id is removed only once per
encounter there. -/
theorem missing_monitors_eq_spec_amended :
    (∀ ms cfg s, ms ≠ ([] : List Monitor) →
        (Py.process_monitors (some ms) cfg s).missing_monitors
          = missingSpec ms cfg.monitor_ids) ∧
    (∀ ms cfg s, cfg.monitor_ids.Nodup →
        (Deep.process_monitors (some ms) cfg s).missing_monitors
          = missingSpec ms cfg.monitor_ids) := by
  constructor
  · intro ms cfg s hne
    cases ms with
    | nil => exact absurd rfl hne
    | cons m0 rest =>
        simp only [Py.process_monitors, Py.scan, missingSpec]
        apply List.filter_congr
        intro x hx
        apply congrArg
        rw [Bool.eq_iff_iff]
        simp only [List.contains_iff_exists_mem_beq, beq_iff_eq, List.any_eq_true]
        constructor
        · rintro ⟨y, hy, rfl⟩
          rcases (py_mem_scan_fst cfg.monitor_ids (m0 :: rest) [] [] x).mp hy with h | h
          · exact absurd h (List.not_mem_nil x)
          · exact h.2
        · intro hex
          refine ⟨x, ?_, rfl⟩
          exact (py_mem_scan_fst cfg.monitor_ids (m0 :: rest) [] [] x).mpr
            (Or.inr ⟨hx, hex⟩)
  · intro ms cfg s hnd
    simp only [Deep.process_monitors]
    rw [show (cfg.monitor_ids, ([] : List Status), (0 : Nat))
        = (cfg.monitor_ids.filter (fun _ => true), ([] : List Status), (0 : Nat)) from by
      rw [List.filter_true]]
    rw [deep_fold_missing cfg.monitor_ids hnd ms (fun _ => true) [] 0, missingSpec]
    apply List.filter_congr
    intro x hx
    simp

/-- C7 witness: tracked ["A", "B", "C"] with a response containing only
"B" yields missing ["A", "C"], matching tracked minus encountered. -/
theorem missing_monitors_eq_spec_amended_witness :
    (Py.process_monitors (some [⟨some "B", none, none, none⟩]) ⟨["A", "B", "C"], 5, 3600⟩
        ("d", "t")).missing_monitors = ["A", "C"] := by
  have h := missing_monitors_eq_spec_amended.1 [⟨some "B", none, none, none⟩]
    ⟨["A", "B", "C"], 5, 3600⟩ ("d", "t") (List.cons_ne_nil _ _)
  rw [h]
  decide

end Shinobi
